import Mathlib

/-!
Shallow embedding of the trading-bot core (`src/TradingStrategy/`):
the strategy template's signal and execution functions (`Template.py`,
class `StrategyTemplate`), the execution validator
(`ExecutionValidator.py`), and the strategy manager's scheduling loop and
frequency helpers (`StrategyManager.py`).

Numeric values (Python `float` / `Decimal`) are modelled as rationals `ℚ`;
Python `int` as `ℤ`; `Optional[...]` fields as `Option`; a raised Python
exception as `Except.error` carrying a `PyErr`.
-/

set_option linter.unusedVariables false

/-- A Python exception class, as raised by the embedded code paths. -/
inductive PyErr where
  | typeError
  | valueError
  | attributeError
  | nameError
  | zeroDivisionError
deriving DecidableEq, Repr

/-! ## Constants.py -/

/-- `Constants.TradingMode`. -/
inductive TradingMode where
  | BACKTEST
  | LIVE
  | SANDBOX
deriving DecidableEq, Repr

/-- `Constants.Broker`. -/
inductive Broker where
  | ZERODHA
  | UPSTOX
  | ANGELONE
deriving DecidableEq, Repr

/-- `Constants.TradeAction`. -/
inductive TradeAction where
  | BUY
  | SELL
  | HOLD
  | NO_ACTION
deriving DecidableEq, Repr

/-- `Constants.TradeStatus`.  Note: the enum has members PROFIT, LOSS, HOLD
and NOT_TRIGGERED only; there is no `HOLDING` member, although
`StrategyManager.py` refers to `TradeStatus.HOLDING` in several places
(such a lookup raises `AttributeError` at runtime). -/
inductive TradeStatus where
  | PROFIT
  | LOSS
  | HOLD
  | NOT_TRIGGERED
deriving DecidableEq, Repr

/-- `Constants.ExecutionStatus`. -/
inductive ExecutionStatus where
  | SUCCESS
  | FAILURE
  | PENDING
deriving DecidableEq, Repr

/-- `Constants.ExectionFrequencyMode` (sic).  `StrategyManager.py` imports it
under the name `ExecutionFrequencyMode`. -/
inductive ExecutionFrequencyMode where
  | CONSTANT
  | DYNAMIC
deriving DecidableEq, Repr

/-- `Constants.BaseExchange`. -/
inductive BaseExchange where
  | NSE
  | BSE
deriving DecidableEq, Repr

/-! ## StrategyData.py -/

/-- `StrategyData.BaseStrategyInput` (the fields the embedded code reads).
The model declares no `ltp` field; `StrategyTemplate.buy`/`sell` nevertheless
read `self.strategy_input.ltp`, so the price reaching the signal functions is
passed explicitly in this embedding. -/
structure BaseStrategyInput where
  trading_symbol : String
  exchange : BaseExchange
deriving DecidableEq, Repr

/-- The strategy parameters reaching `StrategyTemplate`:
`tolerance_percent` from `StrategyData.BaseStrategyParams`, plus the
`target_percent` / `stop_loss_percent` fields that concrete parameter
classes (e.g. `MockStrategyParams`) add and that
`get_target_price` / `get_stop_loss_price` read. -/
structure BaseStrategyParams where
  tolerance_percent : ℚ
  target_percent : ℚ
  stop_loss_percent : ℚ
deriving DecidableEq, Repr

/-- `StrategyData.BaseStrategyOutput`.  `quantity`, `trade_charges`,
`execution_status`, `order_id` and `information` all default to `None`. -/
structure BaseStrategyOutput where
  trading_symbol : String
  exchange : BaseExchange
  trade_action : TradeAction
  quantity : Option ℤ := none
  trade_charges : Option ℚ := none
  execution_status : Option ExecutionStatus := none
  order_id : Option String := none
  information : Option String := none
deriving DecidableEq, Repr

/-- `StrategyData.BaseStrategyManagerState` (the fields the manager loop
touches; the remaining `Optional` price fields default to `None` and are
never written by any embedded code path). -/
structure BaseStrategyManagerState where
  strategy_name : String
  ltp : Option ℚ := none
  timestamp : Option String := none
  trade_status : TradeStatus := TradeStatus.NOT_TRIGGERED
  trading_mode : TradingMode := TradingMode.BACKTEST
  holding_quantity : Option ℤ := some 0
  broker : Option Broker := none
  cooldown_status : Bool := false
deriving DecidableEq, Repr

/-! ## ExecutionValidator.py -/

namespace ExecutionValidator

/-- `ExecutionValidator.validate`: the body is `return True`, performing no
check on the strategy output. -/
def validate (strategy_output : BaseStrategyOutput) : Bool :=
  true

end ExecutionValidator

/-! ## Template.py (`class StrategyTemplate`) -/

namespace StrategyTemplate

/-- `StrategyTemplate.get_target_price`:
`buy_price * (1 + target_percent / 100)`. -/
def get_target_price (p : BaseStrategyParams) (buy_price : ℚ) : ℚ :=
  buy_price * (1 + p.target_percent / 100)

/-- `StrategyTemplate.get_stop_loss_price`:
`buy_price * (1 - stop_loss_percent / 100)`. -/
def get_stop_loss_price (p : BaseStrategyParams) (buy_price : ℚ) : ℚ :=
  buy_price * (1 - p.stop_loss_percent / 100)

/-- `StrategyTemplate.buy_signal`: true iff
`ltp < buy_price + (tolerance_percent / 100) * buy_price`.
`buy_price` is the result of the abstract `get_buy_price()`. -/
def buy_signal (p : BaseStrategyParams) (buy_price ltp : ℚ) : Bool :=
  if ltp < buy_price + (p.tolerance_percent / 100) * buy_price then true
  else false

/-- `StrategyTemplate.sell_signal`: fires on
`ltp > target - (tolerance_percent/100) * target` (profit branch) or on
`ltp < stop_loss + (tolerance_percent/100) * stop_loss` (loss branch);
both comparisons are strict. -/
def sell_signal (p : BaseStrategyParams) (ltp buy_price : ℚ) : Bool :=
  let sell_price_target := get_target_price p buy_price
  let target_tolerance := (p.tolerance_percent / 100) * sell_price_target
  if ltp > sell_price_target - target_tolerance then true
  else
    let sell_price_stop_loss := get_stop_loss_price p buy_price
    let stop_loss_tolerance := (p.tolerance_percent / 100) * sell_price_stop_loss
    if ltp < sell_price_stop_loss + stop_loss_tolerance then true
    else false

/-- Results of the external collaborators that `StrategyTemplate.buy`
consults: the abstract pricing/sizing methods and the broker gateway. -/
structure GatewayEnv where
  buy_price : ℚ
  buy_quantity : ℤ
  brokerage_charges : ℚ
  margin_ok : Bool
  order_id : Option String
deriving DecidableEq, Repr

/-- `StrategyTemplate.buy`: on a buy signal, either fail on insufficient
margin or place the order and mark the output as a successful BUY; with no
signal the output is returned unchanged (action `NO_ACTION`, `quantity`
still `None`). -/
def buy (env : GatewayEnv) (p : BaseStrategyParams) (ltp : ℚ)
    (strategy_output : BaseStrategyOutput) : BaseStrategyOutput :=
  if buy_signal p env.buy_price ltp then
    if env.margin_ok = false then
      { strategy_output with
          execution_status := some ExecutionStatus.FAILURE,
          information := some ("Insufficient margin for trade.") }
    else
      { strategy_output with
          trade_action := TradeAction.BUY,
          quantity := some env.buy_quantity,
          order_id := env.order_id,
          information := some ("Buy order placed successfully."),
          execution_status := some ExecutionStatus.SUCCESS }
  else strategy_output

/-- `StrategyTemplate.execute`: builds a fresh `NO_ACTION` output, then
dispatches on `self.trade_status`.  In the `TradeStatus.HOLD` branch the
source calls `self.sell()` without the required `strategy_output`
positional argument, which raises `TypeError` before `sell`'s body runs;
any status other than `NOT_TRIGGERED` / `HOLD` raises `ValueError`. -/
def execute (env : GatewayEnv) (p : BaseStrategyParams)
    (inp : BaseStrategyInput) (ltp : ℚ) (trade_status : TradeStatus) :
    Except PyErr BaseStrategyOutput :=
  let strategy_output : BaseStrategyOutput :=
    { trading_symbol := inp.trading_symbol,
      exchange := inp.exchange,
      trade_action := TradeAction.NO_ACTION }
  match trade_status with
  | TradeStatus.NOT_TRIGGERED => Except.ok (buy env p ltp strategy_output)
  | TradeStatus.HOLD => Except.error PyErr.typeError
  | _ => Except.error PyErr.valueError

end StrategyTemplate

/-! ## StrategyManager.py (`class StrategyManager`) -/

namespace StrategyManager

/-- Python `int(...)` applied to a rational: truncation toward zero
(floor for non-negative arguments, ceiling for negative ones). -/
def pyInt (q : ℚ) : ℤ :=
  if 0 ≤ q then ⌊q⌋ else ⌈q⌉

/-- `StrategyManager.rerun_wait_time`: raises `ValueError` when `frequency`
is `None` or `== 0`; otherwise computes `int(3600 / frequency)` and lifts
the result to at least `1`. -/
def rerun_wait_time (frequency : Option ℚ) : Except PyErr ℤ :=
  match frequency with
  | none => Except.error PyErr.valueError
  | some f =>
    if f = 0 then Except.error PyErr.valueError
    else
      let wait_time := pyInt (3600 / f)
      Except.ok (if wait_time < 1 then 1 else wait_time)

/-- `StrategyManager._get_harmonic_mean`: with a `None` argument the sum
`value1 + value2` raises `TypeError`; with `value1 + value2 == 0` it
returns `0`, otherwise `(2 * value1 * value2) / (value1 + value2)`. -/
def get_harmonic_mean (value1 value2 : Option ℚ) : Except PyErr ℚ :=
  match value1, value2 with
  | some a, some b =>
    if a + b = 0 then Except.ok 0
    else Except.ok ((2 * a * b) / (a + b))
  | _, _ => Except.error PyErr.typeError

/-- `StrategyManager.calculate_frequency` (a `@staticmethod`):
with a `None` bound the body executes `return self._get_harmonic_mean(...)`,
and the name `self` is undefined inside a static method (`NameError`);
otherwise it computes `raw_frequency`, `max_raw_frequency` and the
normalized `frequency` via `np.log1p`, but the body has no `return`
statement, so the computed value is discarded and the call returns `None`. -/
def calculate_frequency (min_frequency max_frequency : Option ℚ)
    (current_value penalization_exponent epsilon : ℚ) :
    Except PyErr (Option ℚ) :=
  match min_frequency, max_frequency with
  | some _, some _ => Except.ok none
  | _, _ => Except.error PyErr.nameError

/-- `StrategyManager.get_dynamic_execution_frequency`.
The harmonic-mean default is computed *before* the `None` check, so a `None`
bound raises `TypeError` inside `_get_harmonic_mean` and the check on the
next line is unreachable.  `buy_price`, `target_price` and `stop_loss_price`
are the values the source fetches from the strategy just after the check
(the latter two via `try/except`, hence `Option`).  The elif for the holding
state compares against `TradeStatus.HOLDING`, a member that does not exist,
so any template status other than `NOT_TRIGGERED` raises `AttributeError`. -/
def get_dynamic_execution_frequency (ltp : ℚ)
    (min_frequency max_frequency : Option ℚ) (buy_price : ℚ)
    (target_price stop_loss_price : Option ℚ) (trade_status : TradeStatus) :
    Except PyErr (Option ℚ) :=
  match get_harmonic_mean min_frequency max_frequency with
  | Except.error e => Except.error e
  | Except.ok default_frequency =>
    if min_frequency = none ∨ max_frequency = none then
      Except.ok (some default_frequency)
    else if trade_status = TradeStatus.NOT_TRIGGERED then
      if buy_price = 0 then Except.error PyErr.zeroDivisionError
      else
        let ltp_buy_ratio := ltp / buy_price
        if ltp_buy_ratio ≤ 1 then Except.ok max_frequency
        else
          let percentage_closeness := (ltp_buy_ratio - 1) * 100
          calculate_frequency min_frequency max_frequency
            percentage_closeness 2 (1/100)
    else
      Except.error PyErr.attributeError

/-- The manager configuration consumed by the embedded loop: the identity
fields used to build fresh states, the frequency settings, and the values
the dynamic-frequency path fetches from the strategy. -/
structure ManagerConfig where
  strategy_name : String
  mode : TradingMode
  broker : Option Broker
  execution_frequency_mode : ExecutionFrequencyMode
  execution_frequency : Option ℚ
  min_frequency : Option ℚ
  max_frequency : Option ℚ
  buy_price : ℚ
  target_price : Option ℚ
  stop_loss_price : Option ℚ
  template_trade_status : TradeStatus
deriving DecidableEq, Repr

/-- `StrategyManager.reset_strategy_state`: a fresh
`BaseStrategyManagerState` carrying the current strategy name, mode and
broker; every other field keeps its model default (`trade_status =
NOT_TRIGGERED`, `holding_quantity = 0`). -/
def reset_strategy_state (cfg : ManagerConfig) : BaseStrategyManagerState :=
  { strategy_name := cfg.strategy_name,
    trade_status := TradeStatus.NOT_TRIGGERED,
    trading_mode := cfg.mode,
    broker := cfg.broker }

/-- `StrategyManager.initialize_strategy_manager_state`, parametrized by the
result of `load_strategy_manager_state` (which, in the source, always
returns `None`).  The broker comparison sits *inside* the
run-mode-mismatch branch and inspects the state that was just reset, so a
broker mismatch on its own never triggers a reset. -/
def initialize_strategy_manager_state (cfg : ManagerConfig)
    (loaded : Option BaseStrategyManagerState) : BaseStrategyManagerState :=
  match loaded with
  | some strategy_manager_state =>
    if strategy_manager_state.strategy_name ≠ cfg.strategy_name then
      reset_strategy_state cfg
    else if strategy_manager_state.trading_mode ≠ cfg.mode then
      let strategy_manager_state := reset_strategy_state cfg
      if cfg.broker ≠ none then
        if strategy_manager_state.broker ≠ cfg.broker then
          reset_strategy_state cfg
        else strategy_manager_state
      else strategy_manager_state
    else strategy_manager_state
  | none => reset_strategy_state cfg

/-- One polled tick as seen by `run_live`'s loop body: the fetched LTP, the
output `self.strategy.execute()` returned, the current wall-clock string,
and whether `log_strategy_output` hits an I/O / serialization error on this
tick (in which case the source catches it and re-raises `ValueError`). -/
structure Tick where
  ltp : ℚ
  output : BaseStrategyOutput
  now : String
  log_fails : Bool
deriving DecidableEq, Repr

/-- One iteration of the `while True` body of `StrategyManager.run_live`:
validate the output (the validator always accepts; a rejection would
`continue`), commit `timestamp` and `holding_quantity := output.quantity`,
then on BUY assign `TradeStatus.HOLDING` — a member lookup that raises
`AttributeError` — and on SELL replace the state by a fresh reset one;
then log (re-raising `ValueError` on failure), skip the cooldown branch
(`cooldown_strategy()` returns `False`), compute the next frequency
according to the mode, and compute the wait time.  An `Except.error`
models an exception escaping the loop body (run_live's `try` wraps the
whole loop, so any such error terminates the loop). -/
def run_live_iteration (cfg : ManagerConfig)
    (strategy_manager_state : BaseStrategyManagerState) (t : Tick) :
    Except PyErr BaseStrategyManagerState :=
  let strategy_manager_state :=
    { strategy_manager_state with ltp := some t.ltp }
  let strategy_output := t.output
  if ExecutionValidator.validate strategy_output = false then
    Except.ok strategy_manager_state
  else
    let strategy_manager_state :=
      { strategy_manager_state with
          timestamp := some t.now,
          holding_quantity := strategy_output.quantity }
    match strategy_output.trade_action with
    | TradeAction.BUY => Except.error PyErr.attributeError
    | action =>
      let strategy_manager_state :=
        if action = TradeAction.SELL then reset_strategy_state cfg
        else strategy_manager_state
      if t.log_fails then Except.error PyErr.valueError
      else
        let frequency :=
          match cfg.execution_frequency_mode with
          | ExecutionFrequencyMode.CONSTANT => Except.ok cfg.execution_frequency
          | ExecutionFrequencyMode.DYNAMIC =>
            get_dynamic_execution_frequency t.ltp cfg.min_frequency
              cfg.max_frequency cfg.buy_price cfg.target_price
              cfg.stop_loss_price cfg.template_trade_status
        match frequency with
        | Except.error e => Except.error e
        | Except.ok frequency =>
          match rerun_wait_time frequency with
          | Except.error e => Except.error e
          | Except.ok wait_time => Except.ok strategy_manager_state

/-- `StrategyManager.run_live`'s loop over a finite trace of ticks
(the real loop is unbounded; a trace models a prefix of it).  Returns the
final state together with the number of loop iterations that completed:
when an iteration raises, the surrounding `try/except` catches the
exception *outside* the `while`, so the loop terminates and no further
tick is processed. -/
def run_live_loop (cfg : ManagerConfig)
    (strategy_manager_state : BaseStrategyManagerState) :
    List Tick → BaseStrategyManagerState × ℕ
  | [] => (strategy_manager_state, 0)
  | t :: ts =>
    match run_live_iteration cfg strategy_manager_state t with
    | Except.error _ => (strategy_manager_state, 0)
    | Except.ok s =>
      let r := run_live_loop cfg s ts
      (r.1, r.2 + 1)

end StrategyManager

/-! ## Concrete fixtures used by the claim theorems -/

/-- A concrete manager configuration: live mode on Upstox, constant
execution frequency of 10 polls per hour. -/
def fixtureCfg : StrategyManager.ManagerConfig :=
  { strategy_name := "MockStrategy",
    mode := TradingMode.LIVE,
    broker := some Broker.UPSTOX,
    execution_frequency_mode := ExecutionFrequencyMode.CONSTANT,
    execution_frequency := some 10,
    min_frequency := some (1/24),
    max_frequency := some 30,
    buy_price := 800,
    target_price := some 832,
    stop_loss_price := some 784,
    template_trade_status := TradeStatus.NOT_TRIGGERED }

/-- The fresh state `reset_strategy_state` produces for `fixtureCfg`. -/
def fixtureState : BaseStrategyManagerState :=
  StrategyManager.reset_strategy_state fixtureCfg

/-- A tick on which the strategy found no signal: the output keeps the
defaults `trade_action = NO_ACTION`, `quantity = None`. -/
def noActionTick : StrategyManager.Tick :=
  { ltp := 805,
    output := { trading_symbol := "HDFCBANK", exchange := BaseExchange.NSE,
                trade_action := TradeAction.NO_ACTION },
    now := "t1", log_fails := false }

/-- A tick whose output is a successful BUY of 6 shares. -/
def buyTick : StrategyManager.Tick :=
  { ltp := 799,
    output := { trading_symbol := "HDFCBANK", exchange := BaseExchange.NSE,
                trade_action := TradeAction.BUY,
                quantity := some 6,
                execution_status := some ExecutionStatus.SUCCESS,
                order_id := some "123456789",
                information := some ("Buy order placed successfully.") },
    now := "t1", log_fails := false }

/-- The state `run_live`'s commit step produces from `fixtureState` on
`noActionTick`: `holding_quantity` has been overwritten with the output's
`quantity`, i.e. with `None`. -/
def committedState : BaseStrategyManagerState :=
  { strategy_name := "MockStrategy",
    ltp := some 805,
    timestamp := some "t1",
    trade_status := TradeStatus.NOT_TRIGGERED,
    trading_mode := TradingMode.LIVE,
    holding_quantity := none,
    broker := some Broker.UPSTOX,
    cooldown_status := false }

/-- Like `noActionTick` but `log_strategy_output` hits an I/O error on this
tick (the source catches it and re-raises `ValueError`). -/
def logFailTick : StrategyManager.Tick :=
  { noActionTick with log_fails := true }

/-- A persisted state whose strategy name and trading mode match
`fixtureCfg` but whose broker (Zerodha) differs from the configured
broker (Upstox); it also carries a non-trivial open position. -/
def staleBrokerState : BaseStrategyManagerState :=
  { strategy_name := "MockStrategy",
    ltp := some 810,
    timestamp := some "t0",
    trade_status := TradeStatus.HOLD,
    trading_mode := TradingMode.LIVE,
    holding_quantity := some 7,
    broker := some Broker.ZERODHA,
    cooldown_status := false }

/-! ## Claim C1 — ExecutionValidator.validate -/

/-- C1 counterexample: `validate` returns `True` even for decisions whose
`execution_status` is `FAILURE`, `PENDING` or unset — the claim states it
must return `False` for all of these. -/
theorem validate_accepts_non_success_outputs :
    ExecutionValidator.validate
      { trading_symbol := "HDFCBANK", exchange := BaseExchange.NSE,
        trade_action := TradeAction.NO_ACTION,
        execution_status := some ExecutionStatus.FAILURE } = true ∧
    ExecutionValidator.validate
      { trading_symbol := "HDFCBANK", exchange := BaseExchange.NSE,
        trade_action := TradeAction.NO_ACTION,
        execution_status := some ExecutionStatus.PENDING } = true ∧
    ExecutionValidator.validate
      { trading_symbol := "HDFCBANK", exchange := BaseExchange.NSE,
        trade_action := TradeAction.NO_ACTION,
        execution_status := none } = true :=
  ⟨rfl, rfl, rfl⟩

/-- C1 (amended): `ExecutionValidator(d).validate()` returns `True` for
every decision `d`, regardless of its `execution_status` — the validator
body is `return True` and performs no check. -/
theorem validate_returns_true_for_every_output :
    ∀ strategy_output : BaseStrategyOutput,
      ExecutionValidator.validate strategy_output = true :=
  fun _ => rfl

/-! ## Claim C2 — StrategyManager.calculate_frequency -/

/-- C2: `calculate_frequency` never returns the normalized in-band
frequency its docstring promises — the function body has no `return`
statement, so with both bounds set (here `min_frequency = 1`,
`max_frequency = 30`, `percentage_closeness = 5`) the call returns
`None`, not a number in `[min_frequency, max_frequency]`. -/
theorem calculate_frequency_returns_none :
    StrategyManager.calculate_frequency (some 1) (some 30) 5 2 (1/100) =
      Except.ok none :=
  rfl

/-! ## Claim C9 — StrategyTemplate.buy_signal -/

/-- C9: the buy signal fires exactly when the current price is strictly
below `buy_price * (1 + tolerance_percent / 100)`; with `buy_price = 800`
and `tolerance_percent = 0.1`, ticks at 805 and 801 produce no signal and
the tick at 799 fires. -/
theorem buy_signal_fires_below_entry_threshold :
    (∀ (p : BaseStrategyParams) (buy_price ltp : ℚ),
        StrategyTemplate.buy_signal p buy_price ltp = true ↔
          ltp < buy_price * (1 + p.tolerance_percent / 100)) ∧
    StrategyTemplate.buy_signal ⟨1/10, 4, 2⟩ 800 805 = false ∧
    StrategyTemplate.buy_signal ⟨1/10, 4, 2⟩ 800 801 = false ∧
    StrategyTemplate.buy_signal ⟨1/10, 4, 2⟩ 800 799 = true := by
  refine ⟨?_, ?_, ?_, ?_⟩
  · intro p buy_price ltp
    have h : buy_price + p.tolerance_percent / 100 * buy_price =
        buy_price * (1 + p.tolerance_percent / 100) := by ring
    simp [StrategyTemplate.buy_signal, h]
  · norm_num [StrategyTemplate.buy_signal]
  · norm_num [StrategyTemplate.buy_signal]
  · norm_num [StrategyTemplate.buy_signal]

/-! ## Claim C10 — StrategyTemplate.execute in the holding state -/

/-- C10: whenever `trade_status == TradeStatus.HOLD`, `execute()` raises
`TypeError` (the source calls `self.sell()` without the required
`strategy_output` argument), so it never returns any decision — in
particular never a SELL decision — from the holding state. -/
theorem execute_in_holding_raises_type_error :
    ∀ (env : StrategyTemplate.GatewayEnv) (p : BaseStrategyParams)
      (inp : BaseStrategyInput) (ltp : ℚ),
      StrategyTemplate.execute env p inp ltp TradeStatus.HOLD =
        Except.error PyErr.typeError ∧
      ∀ out : BaseStrategyOutput,
        StrategyTemplate.execute env p inp ltp TradeStatus.HOLD ≠
          Except.ok out := by
  intro env p inp ltp
  refine ⟨rfl, ?_⟩
  intro out h
  simp [StrategyTemplate.execute] at h

/-! ## Claim C4 — StrategyTemplate.sell_signal -/

/-- C4 counterexample: with entry price 800, `target_percent = 4` (target
832) and `tolerance_percent = 0.1`, the tick at 830 fires no SELL (830 is
below the threshold 831.168), the tick exactly at the threshold
`832 * 0.999 = 831.168` fires no SELL either (the comparison is strict),
and the claim's own inequality `830 ≥ 832 × 0.999` is false. -/
theorem sell_signal_830_does_not_fire :
    StrategyTemplate.sell_signal ⟨1/10, 4, 2⟩ 830 800 = false ∧
    StrategyTemplate.sell_signal ⟨1/10, 4, 2⟩ (831168/1000) 800 = false ∧
    ¬ ((830 : ℚ) ≥ 832 * (1 - 1/1000)) := by
  refine ⟨?_, ?_, by norm_num⟩ <;>
    norm_num [StrategyTemplate.sell_signal, StrategyTemplate.get_target_price,
      StrategyTemplate.get_stop_loss_price]

/-- C4 (amended): while holding, with frozen target `T = get_target_price`
and stop loss `S = get_stop_loss_price`, the sell signal fires exactly when
the current price is *strictly* above `T * (1 - t)` (profit exit) or
*strictly* below `S * (1 + t)` (loss exit), where
`t = tolerance_percent / 100`; in particular, with entry 800, target 4% and
tolerance 0.1%, the tick at 830 fires nothing and a tick at 831.2 (just
above the 831.168 threshold) fires the profit SELL. -/
theorem sell_signal_strict_thresholds :
    (∀ (p : BaseStrategyParams) (ltp buy_price : ℚ),
        StrategyTemplate.sell_signal p ltp buy_price = true ↔
          (ltp > StrategyTemplate.get_target_price p buy_price *
              (1 - p.tolerance_percent / 100) ∨
           ltp < StrategyTemplate.get_stop_loss_price p buy_price *
              (1 + p.tolerance_percent / 100))) ∧
    StrategyTemplate.sell_signal ⟨1/10, 4, 2⟩ (8312/10) 800 = true := by
  constructor
  · intro p ltp buy_price
    have hT : StrategyTemplate.get_target_price p buy_price -
        p.tolerance_percent / 100 * StrategyTemplate.get_target_price p buy_price =
        StrategyTemplate.get_target_price p buy_price *
          (1 - p.tolerance_percent / 100) := by ring
    have hS : StrategyTemplate.get_stop_loss_price p buy_price +
        p.tolerance_percent / 100 * StrategyTemplate.get_stop_loss_price p buy_price =
        StrategyTemplate.get_stop_loss_price p buy_price *
          (1 + p.tolerance_percent / 100) := by ring
    simp only [StrategyTemplate.sell_signal, hT, hS]
    split_ifs with h1 h2 <;> simp_all
  · norm_num [StrategyTemplate.sell_signal, StrategyTemplate.get_target_price,
      StrategyTemplate.get_stop_loss_price]

/-! ## Claim C5 — StrategyManager.get_dynamic_execution_frequency -/

/-- C5: a `None` frequency bound makes
`get_dynamic_execution_frequency` raise `TypeError` — the harmonic-mean
default is computed on the `None` value *before* the `None` check — and a
zero bound does not produce the harmonic-mean fallback: with
`min_frequency = 0`, `max_frequency = 30` and price at/below the buy price
the function returns `max_frequency = 30`, not the harmonic mean `0`. -/
theorem get_dynamic_execution_frequency_none_raises :
    StrategyManager.get_dynamic_execution_frequency 805 none (some 30) 800
        none none TradeStatus.NOT_TRIGGERED =
      Except.error PyErr.typeError ∧
    StrategyManager.get_dynamic_execution_frequency 805 (some 30) none 800
        none none TradeStatus.NOT_TRIGGERED =
      Except.error PyErr.typeError ∧
    StrategyManager.get_dynamic_execution_frequency 100 (some 0) (some 30)
        800 none none TradeStatus.NOT_TRIGGERED =
      Except.ok (some 30) := by
  refine ⟨rfl, rfl, ?_⟩
  norm_num [StrategyManager.get_dynamic_execution_frequency,
    StrategyManager.get_harmonic_mean]
  exact ⟨Option.some_ne_none 0, Option.some_ne_none 30⟩

/-! ## Claim C6 — StrategyManager.rerun_wait_time -/

/-- C6 counterexample: the claim says every `frequency ≤ 0` raises, but a
negative frequency does not raise — `rerun_wait_time(-1)` computes
`int(3600 / -1) = -3600`, lifts it to the floor of 1 second, and returns
`1`. -/
theorem rerun_wait_time_negative_returns_one :
    StrategyManager.rerun_wait_time (some (-1)) = Except.ok 1 := by
  rw [StrategyManager.rerun_wait_time]
  norm_num [StrategyManager.pyInt,
    show (3600 : ℚ)/(-1) = -(3600/1) by ring, Int.ceil_neg]

/-- C6 (amended): `rerun_wait_time` raises `ValueError` exactly on `None`
or zero frequency; for every nonzero frequency `f` it returns
`max(1, int(3600 / f))` — never less than 1 second — and in particular it
returns `1` (rather than raising) for every negative `f`. -/
theorem rerun_wait_time_floor_and_raises :
    StrategyManager.rerun_wait_time none = Except.error PyErr.valueError ∧
    StrategyManager.rerun_wait_time (some 0) = Except.error PyErr.valueError ∧
    (∀ f : ℚ, f ≠ 0 →
      StrategyManager.rerun_wait_time (some f) =
        Except.ok (max 1 (StrategyManager.pyInt (3600 / f)))) ∧
    (∀ f : ℚ, f < 0 →
      StrategyManager.rerun_wait_time (some f) = Except.ok 1) := by
  have hmax : ∀ f : ℚ, f ≠ 0 →
      StrategyManager.rerun_wait_time (some f) =
        Except.ok (max 1 (StrategyManager.pyInt (3600 / f))) := by
    intro f hf
    rw [StrategyManager.rerun_wait_time, if_neg hf]
    show Except.ok (if StrategyManager.pyInt (3600 / f) < 1 then 1
      else StrategyManager.pyInt (3600 / f)) = _
    rcases lt_or_le (StrategyManager.pyInt (3600 / f)) 1 with h | h
    · rw [if_pos h, max_eq_left (le_of_lt h)]
    · rw [if_neg (not_lt.mpr h), max_eq_right h]
  refine ⟨rfl, by rw [StrategyManager.rerun_wait_time, if_pos rfl], hmax, ?_⟩
  intro f hf
  rw [hmax f (ne_of_lt hf)]
  have hq : (3600 : ℚ) / f < 0 := div_neg_of_pos_of_neg (by norm_num) hf
  have hp : StrategyManager.pyInt (3600 / f) ≤ 0 := by
    rw [StrategyManager.pyInt, if_neg (not_le.mpr hq)]
    exact Int.ceil_le.mpr (by exact_mod_cast le_of_lt hq)
  rw [max_eq_left (by omega)]

/-- C6 witness: instantiating the amended theorem at the nonzero
frequencies 7 and -5. -/
theorem rerun_wait_time_floor_witness :
    StrategyManager.rerun_wait_time (some 7) =
      Except.ok (max 1 (StrategyManager.pyInt (3600 / 7))) ∧
    StrategyManager.rerun_wait_time (some (-5)) = Except.ok 1 :=
  ⟨rerun_wait_time_floor_and_raises.2.2.1 7 (by norm_num),
   rerun_wait_time_floor_and_raises.2.2.2 (-5) (by norm_num)⟩

/-! ## Claim C7 — StrategyManager.initialize_strategy_manager_state -/

/-- C7: a persisted state whose broker differs from the configured broker,
while strategy name and trading mode both match, is returned *unchanged* —
the broker comparison sits inside the run-mode-mismatch branch and
inspects the freshly reset state, so a broker mismatch alone never forces
a reset, contrary to the claim. -/
theorem initialize_state_reuses_stale_broker_state :
    StrategyManager.initialize_strategy_manager_state fixtureCfg
        (some staleBrokerState) = staleBrokerState ∧
    staleBrokerState.broker = some Broker.ZERODHA ∧
    fixtureCfg.broker = some Broker.UPSTOX ∧
    staleBrokerState ≠ StrategyManager.reset_strategy_state fixtureCfg := by
  refine ⟨?_, rfl, rfl, ?_⟩
  · simp [StrategyManager.initialize_strategy_manager_state, fixtureCfg,
      staleBrokerState]
  · simp [StrategyManager.reset_strategy_state, fixtureCfg, staleBrokerState]

/-! ## Claim C3 — the state-commit step of run_live -/

/-- C3: a completed `run_live` iteration does *not* preserve the claimed
`ManagerState` invariant.  On a validated `NO_ACTION` output (the
strategy's no-signal output, whose `quantity` is `None`), the commit step
overwrites `holding_quantity` with `None` — not an integer ≥ 0 — while
`trade_status` stays `NOT_TRIGGERED`; and an iteration whose output is a
BUY never completes at all: assigning `TradeStatus.HOLDING`, a member that
does not exist, raises `AttributeError`. -/
theorem run_live_commit_breaks_state_invariant :
    StrategyManager.run_live_iteration fixtureCfg fixtureState noActionTick =
      Except.ok committedState ∧
    committedState.holding_quantity = none ∧
    committedState.trade_status = TradeStatus.NOT_TRIGGERED ∧
    StrategyManager.run_live_iteration fixtureCfg fixtureState buyTick =
      Except.error PyErr.attributeError := by
  have hw : StrategyManager.rerun_wait_time (some 10) = Except.ok 360 := by
    norm_num [StrategyManager.rerun_wait_time, StrategyManager.pyInt]
  refine ⟨?_, rfl, rfl, ?_⟩
  · simp [StrategyManager.run_live_iteration, fixtureCfg, fixtureState,
      noActionTick, committedState, ExecutionValidator.validate,
      StrategyManager.reset_strategy_state, hw]
  · simp [StrategyManager.run_live_iteration, fixtureCfg, fixtureState,
      buyTick, ExecutionValidator.validate]

/-! ## Claim C8 — logging failures and the run_live loop -/

/-- An iteration of the `run_live` body on a tick whose logging step fails
always raises: either the BUY commit raises `AttributeError` first, or
`log_strategy_output`'s re-raised `ValueError` escapes the loop body. -/
theorem run_live_iteration_error_of_log_fails
    (cfg : StrategyManager.ManagerConfig) (s : BaseStrategyManagerState)
    (t : StrategyManager.Tick) (h : t.log_fails = true) :
    ∃ e, StrategyManager.run_live_iteration cfg s t = Except.error e := by
  rw [StrategyManager.run_live_iteration]
  cases hA : t.output.trade_action <;>
    simp [ExecutionValidator.validate, hA, h]

/-- C8 counterexample: a concrete two-tick trace in which logging raises on
the first tick.  The loop completes zero iterations — the second tick is
never processed — whereas the identical trace with logging healthy on the
first tick completes both iterations.  This contradicts the claim that
`run_live` continues executing subsequent ticks after a logging failure. -/
theorem log_failure_stops_subsequent_ticks :
    (StrategyManager.run_live_loop fixtureCfg fixtureState
        [logFailTick, noActionTick]).2 = 0 ∧
    (StrategyManager.run_live_loop fixtureCfg fixtureState
        [noActionTick, noActionTick]).2 = 2 := by
  have hw : StrategyManager.rerun_wait_time (some 10) = Except.ok 360 := by
    norm_num [StrategyManager.rerun_wait_time, StrategyManager.pyInt]
  constructor <;>
    simp [StrategyManager.run_live_loop, StrategyManager.run_live_iteration,
      fixtureCfg, fixtureState, noActionTick, logFailTick,
      ExecutionValidator.validate, StrategyManager.reset_strategy_state, hw]

/-- C8 (amended): a tick on which `log_strategy_output` raises terminates
the polling loop: the re-raised `ValueError` propagates to `run_live`'s
outer `try/except`, which sleeps once and returns, so zero further
iterations complete and no subsequent tick is processed. -/
theorem log_failure_terminates_run_live_loop :
    ∀ (cfg : StrategyManager.ManagerConfig) (s : BaseStrategyManagerState)
      (t : StrategyManager.Tick) (ts : List StrategyManager.Tick),
      t.log_fails = true →
      (StrategyManager.run_live_loop cfg s (t :: ts)).2 = 0 := by
  intro cfg s t ts h
  obtain ⟨e, he⟩ := run_live_iteration_error_of_log_fails cfg s t h
  simp [StrategyManager.run_live_loop, he]

/-- C8 witness: instantiating the amended theorem on the concrete
log-failing tick. -/
theorem log_failure_terminates_run_live_loop_witness :
    (StrategyManager.run_live_loop fixtureCfg fixtureState
        [logFailTick, noActionTick]).2 = 0 :=
  log_failure_terminates_run_live_loop fixtureCfg fixtureState logFailTick
    [noActionTick] rfl

/-- C10 witness: the TypeError equation instantiated at a concrete
gateway environment, parameter set, strategy input and price. -/
theorem execute_in_holding_witness :
    StrategyTemplate.execute ⟨800, 6, 25, true, none⟩ ⟨1/10, 4, 2⟩
        ⟨"HDFCBANK", BaseExchange.NSE⟩ 805 TradeStatus.HOLD =
      Except.error PyErr.typeError :=
  (execute_in_holding_raises_type_error ⟨800, 6, 25, true, none⟩ ⟨1/10, 4, 2⟩
    ⟨"HDFCBANK", BaseExchange.NSE⟩ 805).1
